import Mathlib

/-!
Verification of `tools/compile_shaders.py`, a build-time utility that
locates the `glslc.exe` shader compiler and invokes it once per shader
source file in a fixed directory.

The script is embedded shallowly:

* The environment visible to `find_glslc` (the result of
  `shutil.which`, the `VULKAN_SDK` variable, the set of existing
  filesystem paths, and the entries of the default SDK root) becomes an
  explicit `Env` record.
* Paths are strings; `pathlib.Path` operations (`/`, `.name`,
  `.suffix`) become string functions (`joinPath`, `pathName`,
  `suffix`).
* `main` becomes a pure function from a `World` (locator environment,
  directory listing, subprocess behaviour) to a trace of observable
  events (prints, the mkdir call, subprocess invocations) plus the
  process exit code.
-/

/-- Python's `str.lower()` (the inputs here are ASCII extension strings). -/
def strLower (s : String) : String := String.mk (s.data.map Char.toLower)

/-- Python truthiness of an optional string: `None` and `""` are falsy. -/
def truthyStr : Option String → Bool
  | some s => s ≠ ""
  | none => false

/-- Model of `Path a / b`: string concatenation with a separator. -/
def joinPath (a b : String) : String := a ++ "/" ++ b

/-- Auxiliary scan for `suffix`: walks the reversed character list of a
filename, accumulating the characters seen before the first dot (i.e. the
characters after the last dot of the original name, in original order).
Mirrors `name[i:] if 0 < i < len(name)-1 else ''` with `i = name.rfind('.')`:
a dot found with an empty accumulator is a trailing dot (`i = len-1`), a dot
found with nothing after it is a leading dot (`i = 0`); both yield `""`. -/
def sfxGo (acc : List Char) : List Char → List Char
  | [] => []
  | c :: cs =>
    if c = '.' then (if acc.isEmpty || cs.isEmpty then [] else '.' :: acc)
    else sfxGo (c :: acc) cs

/-- Model of `pathlib.Path(...).suffix` of a filename: the final `.ext` part,
or `""` when the name has no dot, starts with its only dot, or ends in a
dot. -/
def suffix (s : String) : String := String.mk (sfxGo [] s.data.reverse)

/-- Model of `pathlib.Path(...).name`: the part after the last `/`. -/
def pathName (p : String) : String :=
  String.mk ((p.data.reverse.takeWhile (fun c => c ≠ '/')).reverse)

/-- The environment `find_glslc` reads: the answer `shutil.which("glslc.exe")`
would give, the `VULKAN_SDK` environment variable, the set of existing
filesystem paths, and the entries `Path("C:/VulkanSDK").iterdir()` would
yield (as names relative to that root). -/
structure Env where
  whichResult : Option String
  vulkanSdk : Option String
  fs : List String
  sdkSubdirs : List String
deriving DecidableEq

/-- Model of `Path(p).exists()` against the environment's filesystem. -/
def pathExists (env : Env) (p : String) : Bool := p ∈ env.fs

/-- The default SDK install root `Path("C:/VulkanSDK")`. -/
def defaultSdkDir : String := "C:/VulkanSDK"

/-- The `for p in default_sdk_dir.iterdir()` loop of `find_glslc`:
returns the first `<subdir>/Bin/glslc.exe` that exists. -/
def searchDefaultRoot (env : Env) : List String → Option String
  | [] => none
  | p :: ps =>
    let guess := joinPath (joinPath (joinPath defaultSdkDir p) "Bin") "glslc.exe"
    if pathExists env guess then some guess else searchDefaultRoot env ps

/-- The locator `find_glslc()`: try `shutil.which`, then `VULKAN_SDK`, then the
default install root, returning the first hit or `none`.  The control
flow mirrors the source's sequence of early returns. -/
def find_glslc (env : Env) : Option String :=
  if truthyStr env.whichResult then env.whichResult
  else
    match env.vulkanSdk with
    | some sdk =>
      if sdk ≠ "" then
        if pathExists env (joinPath (joinPath sdk "Bin") "glslc.exe") then
          some (joinPath (joinPath sdk "Bin") "glslc.exe")
        else if pathExists env defaultSdkDir then searchDefaultRoot env env.sdkSubdirs
        else none
      else if pathExists env defaultSdkDir then searchDefaultRoot env env.sdkSubdirs
      else none
    | none =>
      if pathExists env defaultSdkDir then searchDefaultRoot env env.sdkSubdirs
      else none

/-- Search method 1 in isolation: the executable search path. -/
def m1 (env : Env) : Option String :=
  if truthyStr env.whichResult then env.whichResult else none

/-- Search method 2 in isolation: `VULKAN_SDK`/Bin/glslc.exe, if it exists. -/
def m2 (env : Env) : Option String :=
  match env.vulkanSdk with
  | some sdk =>
    if sdk ≠ "" then
      if pathExists env (joinPath (joinPath sdk "Bin") "glslc.exe") then
        some (joinPath (joinPath sdk "Bin") "glslc.exe")
      else none
    else none
  | none => none

/-- Search method 3 in isolation: the default install root's subdirectories. -/
def m3 (env : Env) : Option String :=
  if pathExists env defaultSdkDir then searchDefaultRoot env env.sdkSubdirs
  else none

/-- First `some` in a list of optional results. -/
def firstHit : List (Option String) → Option String
  | [] => none
  | o :: os => match o with | some x => some x | none => firstHit os

/-- The constant `SHADER_DIR = "../shaders"`. -/
def SHADER_DIR : String := "../shaders"

/-- The constant `OUT_DIR = "../shaders"`. -/
def OUT_DIR : String := "../shaders"

/-- The `shader_exts` set of recognized extensions. -/
def shader_exts : List String :=
  [".vert", ".frag", ".comp", ".geom", ".tesc", ".tese",
   ".mesh", ".task", ".rgen", ".rchit", ".rmiss"]

/-- One directory entry as `glob("*")` yields it: a name, plus whether it
is a directory (the script never inspects the latter). -/
structure Entry where
  name : String
  isDir : Bool
deriving DecidableEq

/-- An observable action of the script: a printed line, the
`mkdir(exist_ok=True)` call, or a compiler subprocess invocation with its
full argument vector. -/
inductive Event where
  | printE (s : String)
  | mkdirE (dir : String)
  | invokeE (argv : List String)
deriving DecidableEq

/-- The whole world `main` runs against: the locator environment, the
entries of `SHADER_DIR`, and the behaviour of the external compiler
(exit code and captured stderr per argument vector). -/
structure World where
  env : Env
  listing : List Entry
  run : List String → Nat × String

/-- Model of `compile_shader(glslc_path, input_path, output_path)`: invoke the
compiler with `[glslc, input, "-o", output]` and print `[FAILED] <input>`
plus stderr on nonzero exit, or `[OK] <name> -> <name>` on zero exit. -/
def compile_shader (run : List String → Nat × String)
    (glslc_path input_path output_path : String) : List Event :=
  let cmd := [glslc_path, input_path, "-o", output_path]
  let result := run cmd
  Event.invokeE cmd ::
    (if result.1 ≠ 0 then
      [Event.printE ("[FAILED] " ++ input_path), Event.printE result.2]
    else
      [Event.printE ("[OK] " ++ pathName input_path ++ " -> " ++ pathName output_path)])

/-- The `for shader in shader_dir.glob("*")` loop of `main`: each entry
whose lower-cased suffix is a recognized extension is compiled to
`OUT_DIR/<name>.spv`; other entries produce nothing. -/
def compileLoop (run : List String → Nat × String) (glslc : String) :
    List Entry → List Event
  | [] => []
  | e :: es =>
    (if strLower (suffix e.name) ∈ shader_exts then
      compile_shader run glslc (joinPath SHADER_DIR e.name)
        (joinPath OUT_DIR (e.name ++ ".spv"))
    else []) ++ compileLoop run glslc es

/-- The outcome of a run of `main`: the trace of observable events and
the process exit status. -/
structure MainResult where
  events : List Event
  exitCode : Nat
deriving DecidableEq

/-- Model of `main()`: locate the compiler; on failure print two diagnostics and
exit with status 1; on success print the `Using glslc` line, create the
output directory, run the compile loop, print `Done.` and exit 0. -/
def main_run (w : World) : MainResult :=
  match find_glslc w.env with
  | none =>
    { events := [Event.printE "ERROR: Could not locate glslc.exe on this system.",
                 Event.printE "Make sure the Vulkan SDK is installed or glslc is in PATH."],
      exitCode := 1 }
  | some glslc =>
    { events := Event.printE ("Using glslc: " ++ glslc) ::
        Event.mkdirE OUT_DIR ::
        (compileLoop w.run glslc w.listing ++ [Event.printE "Done."]),
      exitCode := 0 }

/-- Model of `Path(dir).mkdir(exist_ok=True)` on a filesystem modelled as the list
of existing directories: a no-op when the directory exists, otherwise it
is added. -/
def mkdirExistOk (dir : String) (fs : List String) : List String :=
  if dir ∈ fs then fs else dir :: fs

/-- Recognizer for invocation events. -/
def isInvoke : Event → Bool
  | .invokeE _ => true
  | _ => false

/-- Recognizer for mkdir events. -/
def isMkdir : Event → Bool
  | .mkdirE _ => true
  | _ => false

/-- The names among a directory listing that the extension filter selects. -/
def selectedNames (l : List String) : List String :=
  l.filter (fun n => decide (strLower (suffix n) ∈ shader_exts))

/-! ### Helper lemmas -/

theorem compile_shader_countP_isInvoke (run : List String → Nat × String)
    (g i o : String) : (compile_shader run g i o).countP isInvoke = 1 := by
  simp only [compile_shader]
  split <;> simp [isInvoke]

theorem compile_shader_countP_isMkdir (run : List String → Nat × String)
    (g i o : String) : (compile_shader run g i o).countP isMkdir = 0 := by
  simp only [compile_shader]
  split <;> simp [isMkdir]

theorem compileLoop_countP_isInvoke (run : List String → Nat × String)
    (g : String) (l : List Entry) :
    (compileLoop run g l).countP isInvoke
      = l.countP (fun e => decide (strLower (suffix e.name) ∈ shader_exts)) := by
  induction l with
  | nil => simp [compileLoop]
  | cons e es ih =>
    by_cases hsel : strLower (suffix e.name) ∈ shader_exts
    · simp [compileLoop, if_pos hsel, List.countP_append, ih,
        compile_shader_countP_isInvoke, List.countP_cons, hsel, Nat.add_comm]
    · simp [compileLoop, if_neg hsel, List.countP_append, ih, List.countP_cons, hsel]

theorem compileLoop_countP_isMkdir (run : List String → Nat × String)
    (g : String) (l : List Entry) :
    (compileLoop run g l).countP isMkdir = 0 := by
  induction l with
  | nil => simp [compileLoop]
  | cons e es ih =>
    by_cases hsel : strLower (suffix e.name) ∈ shader_exts
    · simp [compileLoop, if_pos hsel, List.countP_append, ih,
        compile_shader_countP_isMkdir]
    · simp [compileLoop, if_neg hsel, List.countP_append, ih]

theorem invoke_mem_compile_shader (run : List String → Nat × String)
    (g i o : String) (a : List String)
    (h : Event.invokeE a ∈ compile_shader run g i o) : a = [g, i, "-o", o] := by
  simp only [compile_shader, List.mem_cons] at h
  rcases h with h | h
  · simpa using h
  · split at h <;> simp at h

theorem invoke_mem_compileLoop (run : List String → Nat × String)
    (g : String) (l : List Entry) (a : List String)
    (h : Event.invokeE a ∈ compileLoop run g l) :
    ∃ e, e ∈ l ∧ strLower (suffix e.name) ∈ shader_exts ∧
      a = [g, joinPath SHADER_DIR e.name, "-o", joinPath OUT_DIR (e.name ++ ".spv")] := by
  induction l with
  | nil => simp [compileLoop] at h
  | cons e es ih =>
    simp only [compileLoop] at h
    rcases List.mem_append.mp h with h1 | h2
    · by_cases hsel : strLower (suffix e.name) ∈ shader_exts
      · rw [if_pos hsel] at h1
        exact ⟨e, List.mem_cons_self e es, hsel,
          invoke_mem_compile_shader run g _ _ a h1⟩
      · rw [if_neg hsel] at h1
        simp at h1
    · obtain ⟨e', he', hsel', ha⟩ := ih h2
      exact ⟨e', List.mem_cons_of_mem e he', hsel', ha⟩

theorem mem_compileLoop_of_mem_compile_shader (run : List String → Nat × String)
    (g : String) (l : List Entry) (e : Entry) (he : e ∈ l)
    (hsel : strLower (suffix e.name) ∈ shader_exts) (x : Event)
    (hx : x ∈ compile_shader run g (joinPath SHADER_DIR e.name)
            (joinPath OUT_DIR (e.name ++ ".spv"))) :
    x ∈ compileLoop run g l := by
  induction he with
  | head es =>
    simp only [compileLoop]
    exact List.mem_append_left _ (by rw [if_pos hsel]; exact hx)
  | tail b hb ih =>
    simp only [compileLoop]
    exact List.mem_append_right _ ih

theorem firstHit_cons_some (x : String) (os : List (Option String)) :
    firstHit (some x :: os) = some x := rfl

theorem firstHit_cons_none (os : List (Option String)) :
    firstHit (none :: os) = firstHit os := rfl

theorem firstHit_singleton (o : Option String) : firstHit [o] = o := by
  cases o <;> rfl

/-! ### Claim theorems -/

/-- C1: `find_glslc` tries its three search methods strictly in order —
the executable search path, then `VULKAN_SDK/Bin/glslc.exe`, then the
subdirectories of the default install root — and, for every environment
and filesystem state, returns the result of the first method that yields
a hit; once an earlier method succeeds, no later method's candidate is
returned even if it also exists. -/
theorem C1_locator_first_hit (env : Env) :
    find_glslc env = firstHit [m1 env, m2 env, m3 env] := by
  by_cases ht : truthyStr env.whichResult
  · cases hw : env.whichResult with
    | none => rw [hw] at ht; simp [truthyStr] at ht
    | some g =>
      rw [hw] at ht
      have h1 : m1 env = some g := by simp [m1, hw, ht]
      have hf : find_glslc env = some g := by simp [find_glslc, hw, ht]
      rw [hf, h1, firstHit_cons_some]
  · have h1 : m1 env = none := by simp [m1, ht]
    rw [h1, firstHit_cons_none]
    cases hv : env.vulkanSdk with
    | none =>
      have h2 : m2 env = none := by simp [m2, hv]
      rw [h2, firstHit_cons_none, firstHit_singleton]
      simp [find_glslc, ht, hv, m3]
    | some sdk =>
      by_cases hs : sdk = ""
      · have h2 : m2 env = none := by simp [m2, hv, hs]
        rw [h2, firstHit_cons_none, firstHit_singleton]
        simp [find_glslc, ht, hv, hs, m3]
      · by_cases hp : pathExists env (joinPath (joinPath sdk "Bin") "glslc.exe")
        · have h2 : m2 env = some (joinPath (joinPath sdk "Bin") "glslc.exe") := by
            simp [m2, hv, hs, hp]
          rw [h2, firstHit_cons_some]
          simp [find_glslc, ht, hv, hs, hp]
        · have h2 : m2 env = none := by simp [m2, hv, hs, hp]
          rw [h2, firstHit_cons_none, firstHit_singleton]
          simp [find_glslc, ht, hv, hs, hp, m3]

/-- C2: when no search method succeeds, `main` prints exactly the two
fixed diagnostic lines and exits with status 1; no subprocess is invoked
and no directory is created. -/
theorem C2_not_found_exits_1 (w : World) (h : find_glslc w.env = none) :
    (main_run w).exitCode = 1 ∧
    (main_run w).events =
      [Event.printE "ERROR: Could not locate glslc.exe on this system.",
       Event.printE "Make sure the Vulkan SDK is installed or glslc is in PATH."] ∧
    (∀ a, Event.invokeE a ∉ (main_run w).events) ∧
    (∀ d, Event.mkdirE d ∉ (main_run w).events) := by
  refine ⟨?_, ?_, ?_, ?_⟩ <;> simp [main_run, h]

theorem C2_not_found_exits_1_witness :
    find_glslc (World.mk ⟨none, none, [], []⟩ [] (fun _ => (0, ""))).env = none ∧
    (main_run (World.mk ⟨none, none, [], []⟩ [] (fun _ => (0, "")))).exitCode = 1 :=
  ⟨rfl, (C2_not_found_exits_1 (World.mk ⟨none, none, [], []⟩ [] (fun _ => (0, ""))) rfl).1⟩

/-- C3: whenever the locator succeeds, `main` runs the whole batch and
exits with status 0, printing the final `Done.` marker — for every
possible compiler behaviour, so in particular no matter how many
individual compilations return nonzero exit codes. -/
theorem C3_success_exits_0 (w : World) (g : String)
    (h : find_glslc w.env = some g) :
    (main_run w).exitCode = 0 ∧
    Event.printE "Done." ∈ (main_run w).events := by
  refine ⟨?_, ?_⟩ <;> simp [main_run, h]

theorem C3_success_exits_0_witness :
    find_glslc (World.mk ⟨some "g", none, [], []⟩
      [⟨"a.vert", false⟩] (fun _ => (1, "err"))).env = some "g" ∧
    (main_run (World.mk ⟨some "g", none, [], []⟩
      [⟨"a.vert", false⟩] (fun _ => (1, "err")))).exitCode = 0 ∧
    Event.printE "[FAILED] ../shaders/a.vert" ∈
      (main_run (World.mk ⟨some "g", none, [], []⟩
        [⟨"a.vert", false⟩] (fun _ => (1, "err")))).events :=
  ⟨rfl,
   (C3_success_exits_0 (World.mk ⟨some "g", none, [], []⟩
      [⟨"a.vert", false⟩] (fun _ => (1, "err"))) "g" rfl).1,
   by decide⟩

/-- C4: for every directory content, `main` invokes the compiler exactly
once per entry whose lower-cased extension is one of the eleven
recognized shader suffixes, and zero times for every other entry: the
number of invocation events equals the number of matching entries. -/
theorem C4_invocation_count (w : World) (g : String)
    (h : find_glslc w.env = some g) :
    (main_run w).events.countP isInvoke
      = w.listing.countP (fun e => decide (strLower (suffix e.name) ∈ shader_exts)) := by
  simp [main_run, h, List.countP_append, List.countP_cons, isInvoke,
    compileLoop_countP_isInvoke]

theorem C4_invocation_count_witness :
    find_glslc (World.mk ⟨some "g", none, [], []⟩
      [⟨"a.vert", false⟩, ⟨"b.frag", false⟩, ⟨"c.txt", false⟩]
      (fun _ => (0, ""))).env = some "g" ∧
    (main_run (World.mk ⟨some "g", none, [], []⟩
      [⟨"a.vert", false⟩, ⟨"b.frag", false⟩, ⟨"c.txt", false⟩]
      (fun _ => (0, "")))).events.countP isInvoke = 2 :=
  ⟨rfl,
   (C4_invocation_count (World.mk ⟨some "g", none, [], []⟩
      [⟨"a.vert", false⟩, ⟨"b.frag", false⟩, ⟨"c.txt", false⟩]
      (fun _ => (0, ""))) "g" rfl).trans (by decide)⟩

/-- C5: every compiler invocation carries exactly three arguments after
the executable path — the input path, the literal `-o`, and the output
directory joined with the input's filename with `.spv` appended. -/
theorem C5_argv_shape (w : World) (g : String) (h : find_glslc w.env = some g)
    (a : List String) (ha : Event.invokeE a ∈ (main_run w).events) :
    ∃ e, e ∈ w.listing ∧
      a = [g, joinPath SHADER_DIR e.name, "-o", joinPath OUT_DIR (e.name ++ ".spv")] := by
  simp only [main_run, h, List.mem_cons, List.mem_append,
    List.mem_singleton] at ha
  rcases ha with h1 | h2 | h3 | h4
  · exact absurd h1 (by simp)
  · exact absurd h2 (by simp)
  · obtain ⟨e, he, _, hae⟩ := invoke_mem_compileLoop w.run g w.listing a h3
    exact ⟨e, he, hae⟩
  · exact absurd h4 (by simp)

theorem C5_argv_shape_witness :
    ∃ e, e ∈ [Entry.mk "a.vert" false] ∧
      (["g", "../shaders/a.vert", "-o", "../shaders/a.vert.spv"] : List String)
        = ["g", joinPath SHADER_DIR e.name, "-o", joinPath OUT_DIR (e.name ++ ".spv")] :=
  C5_argv_shape (World.mk ⟨some "g", none, [], []⟩ [⟨"a.vert", false⟩] (fun _ => (0, "")))
    "g" rfl ["g", "../shaders/a.vert", "-o", "../shaders/a.vert.spv"] (by decide)

/-- C7: the output directory is created exactly once, before the compile
loop (the mkdir event is the second event, and nothing later is a
mkdir), and `mkdir(exist_ok=True)` is idempotent on the filesystem: a
second creation changes nothing, and creating an already-existing
directory leaves the filesystem untouched. -/
theorem C7_mkdir_once_idempotent (w : World) (g : String)
    (h : find_glslc w.env = some g) (fs : List String) :
    (∃ rest, (main_run w).events
        = Event.printE ("Using glslc: " ++ g) :: Event.mkdirE OUT_DIR :: rest ∧
      rest.countP isMkdir = 0) ∧
    mkdirExistOk OUT_DIR (mkdirExistOk OUT_DIR fs) = mkdirExistOk OUT_DIR fs ∧
    (OUT_DIR ∈ fs → mkdirExistOk OUT_DIR fs = fs) := by
  refine ⟨⟨compileLoop w.run g w.listing ++ [Event.printE "Done."], ?_, ?_⟩, ?_, ?_⟩
  · simp [main_run, h]
  · simp [List.countP_append, compileLoop_countP_isMkdir, isMkdir]
  · by_cases hin : OUT_DIR ∈ fs <;> simp [mkdirExistOk, hin]
  · intro hin; simp [mkdirExistOk, hin]

theorem C7_mkdir_once_idempotent_witness :
    find_glslc (World.mk ⟨some "g", none, [], []⟩ [] (fun _ => (0, ""))).env = some "g" ∧
    mkdirExistOk OUT_DIR (mkdirExistOk OUT_DIR []) = mkdirExistOk OUT_DIR [] :=
  ⟨rfl,
   (C7_mkdir_once_idempotent (World.mk ⟨some "g", none, [], []⟩ [] (fun _ => (0, "")))
      "g" rfl []).2.1⟩

/-- C9: the fixed input directory and the fixed output directory are the
same path, so after the pre-loop `mkdir(exist_ok=True)` the enumerated
input directory is guaranteed to exist. -/
theorem C9_input_dir_exists_after_mkdir (fs : List String) :
    SHADER_DIR = OUT_DIR ∧ SHADER_DIR ∈ mkdirExistOk OUT_DIR fs := by
  refine ⟨rfl, ?_⟩
  unfold mkdirExistOk
  by_cases hin : OUT_DIR ∈ fs
  · rw [if_pos hin]; exact hin
  · rw [if_neg hin]; exact List.mem_cons_self _ _

/-- C10: selection is by filename suffix only — any entry whose name has
a recognized extension is passed to the compiler, with no check that it
is a regular file (the `isDir` flag is never consulted). -/
theorem C10_suffix_only_no_file_check (w : World) (g : String)
    (h : find_glslc w.env = some g) (e : Entry) (he : e ∈ w.listing)
    (hsel : strLower (suffix e.name) ∈ shader_exts) :
    Event.invokeE [g, joinPath SHADER_DIR e.name, "-o",
      joinPath OUT_DIR (e.name ++ ".spv")] ∈ (main_run w).events := by
  have hx : Event.invokeE [g, joinPath SHADER_DIR e.name, "-o",
      joinPath OUT_DIR (e.name ++ ".spv")]
      ∈ compile_shader w.run g (joinPath SHADER_DIR e.name)
          (joinPath OUT_DIR (e.name ++ ".spv")) := by
    simp [compile_shader]
  have hloop := mem_compileLoop_of_mem_compile_shader w.run g w.listing e he hsel _ hx
  have hev : (main_run w).events
      = Event.printE ("Using glslc: " ++ g) :: Event.mkdirE OUT_DIR ::
        (compileLoop w.run g w.listing ++ [Event.printE "Done."]) := by
    simp [main_run, h]
  rw [hev]
  exact List.mem_cons_of_mem _ (List.mem_cons_of_mem _ (List.mem_append_left _ hloop))

theorem C10_suffix_only_no_file_check_witness :
    find_glslc (World.mk ⟨some "g", none, [], []⟩ [⟨"sub.vert", true⟩]
      (fun _ => (0, ""))).env = some "g" ∧
    Event.invokeE ["g", joinPath SHADER_DIR "sub.vert", "-o",
      joinPath OUT_DIR ("sub.vert" ++ ".spv")]
      ∈ (main_run (World.mk ⟨some "g", none, [], []⟩ [⟨"sub.vert", true⟩]
          (fun _ => (0, "")))).events :=
  ⟨rfl,
   C10_suffix_only_no_file_check
     (World.mk ⟨some "g", none, [], []⟩ [⟨"sub.vert", true⟩] (fun _ => (0, "")))
     "g" rfl ⟨"sub.vert", true⟩ (by decide) (by decide)⟩

theorem suffix_spv_not_selected (n : String) :
    strLower (suffix (n ++ ".spv")) ∉ shader_exts := by
  obtain ⟨l⟩ := n
  have hdata : (String.mk l ++ ".spv").data.reverse
      = 'v' :: 'p' :: 's' :: '.' :: l.reverse := by
    show (l ++ ['.', 's', 'p', 'v']).reverse = _
    simp
  unfold suffix
  rw [hdata]
  rcases hl : l.reverse with _ | ⟨c, cs⟩
  · decide
  · have h2 : sfxGo [] ('v' :: 'p' :: 's' :: '.' :: c :: cs) = ['.', 's', 'p', 'v'] := rfl
    rw [h2]; decide

theorem compileLoop_append (run : List String → Nat × String) (g : String)
    (l l' : List Entry) :
    compileLoop run g (l ++ l') = compileLoop run g l ++ compileLoop run g l' := by
  induction l with
  | nil => simp [compileLoop]
  | cons e es ih => simp [compileLoop, ih]

theorem compileLoop_spv_outputs (run : List String → Nat × String) (g : String)
    (outs : List String) :
    compileLoop run g (outs.map (fun n => Entry.mk (n ++ ".spv") false)) = [] := by
  induction outs with
  | nil => simp [compileLoop]
  | cons n ns ih =>
    rw [List.map_cons]
    simp only [compileLoop]
    rw [if_neg (suffix_spv_not_selected n)]
    simpa using ih

/-- C8: `.spv` is not a recognized extension, so the outputs the program
writes into the shared input/output directory — named
`<original filename>.spv` — are never themselves selected by the
extension filter: adding any previously produced outputs to the listing
leaves the sequence of compiler invocations unchanged. -/
theorem C8_outputs_never_reselected (w : World) (g : String)
    (h : find_glslc w.env = some g) (outs : List String) :
    ".spv" ∉ shader_exts ∧
    (main_run (World.mk w.env
        (w.listing ++ outs.map (fun n => Entry.mk (n ++ ".spv") false))
        w.run)).events.filter isInvoke
      = (main_run w).events.filter isInvoke := by
  refine ⟨by decide, ?_⟩
  simp [main_run, h, List.filter_append, compileLoop_append,
    compileLoop_spv_outputs, isInvoke]

theorem C8_outputs_never_reselected_witness :
    ".spv" ∉ shader_exts ∧
    (main_run (World.mk ⟨some "g", none, [], []⟩
        ([⟨"a.vert", false⟩] ++ List.map (fun n => Entry.mk (n ++ ".spv") false) ["a.vert"])
        (fun _ => (0, "")))).events.filter isInvoke
      = (main_run (World.mk ⟨some "g", none, [], []⟩ [⟨"a.vert", false⟩]
          (fun _ => (0, "")))).events.filter isInvoke :=
  C8_outputs_never_reselected
    (World.mk ⟨some "g", none, [], []⟩ [⟨"a.vert", false⟩] (fun _ => (0, "")))
    "g" rfl ["a.vert"]

/-- C6 counterexample: with one shader `a.vert` whose compilation fails,
the failure status line the script prints is not `[FAILED] a.vert`
(the input filename, as the claim's `[FAILED] name` pattern states) but
`[FAILED] ../shaders/a.vert` (the full input path). -/
theorem C6_reporting_counterexample :
    Event.printE "[FAILED] a.vert"
      ∉ (main_run (World.mk ⟨some "g", none, [], []⟩ [⟨"a.vert", false⟩]
          (fun _ => (1, "boom")))).events ∧
    Event.printE "[FAILED] ../shaders/a.vert"
      ∈ (main_run (World.mk ⟨some "g", none, [], []⟩ [⟨"a.vert", false⟩]
          (fun _ => (1, "boom")))).events := by decide

/-- C6 (amended): a subprocess exit code of 0 produces the line
`[OK] <input filename> -> <output filename>`, a nonzero exit code
produces `[FAILED] <input path>` (the full input path, not the bare
filename) followed by the raw captured standard-error text; in both
cases the batch continues, and the single `Done.` marker is printed
after all entries are processed. -/
theorem C6_reporting_amended (w : World) (g : String)
    (h : find_glslc w.env = some g) (e : Entry) (he : e ∈ w.listing)
    (hsel : strLower (suffix e.name) ∈ shader_exts) :
    ((w.run [g, joinPath SHADER_DIR e.name, "-o",
        joinPath OUT_DIR (e.name ++ ".spv")]).1 = 0 →
      Event.printE ("[OK] " ++ pathName (joinPath SHADER_DIR e.name) ++ " -> "
          ++ pathName (joinPath OUT_DIR (e.name ++ ".spv")))
        ∈ (main_run w).events) ∧
    ((w.run [g, joinPath SHADER_DIR e.name, "-o",
        joinPath OUT_DIR (e.name ++ ".spv")]).1 ≠ 0 →
      Event.printE ("[FAILED] " ++ joinPath SHADER_DIR e.name) ∈ (main_run w).events ∧
      Event.printE (w.run [g, joinPath SHADER_DIR e.name, "-o",
        joinPath OUT_DIR (e.name ++ ".spv")]).2 ∈ (main_run w).events) ∧
    Event.printE "Done." ∈ (main_run w).events := by
  have hev : (main_run w).events
      = Event.printE ("Using glslc: " ++ g) :: Event.mkdirE OUT_DIR ::
        (compileLoop w.run g w.listing ++ [Event.printE "Done."]) := by
    simp [main_run, h]
  have hloop : ∀ x, x ∈ compile_shader w.run g (joinPath SHADER_DIR e.name)
      (joinPath OUT_DIR (e.name ++ ".spv")) → x ∈ (main_run w).events := by
    intro x hx
    rw [hev]
    exact List.mem_cons_of_mem _ (List.mem_cons_of_mem _ (List.mem_append_left _
      (mem_compileLoop_of_mem_compile_shader w.run g w.listing e he hsel x hx)))
  refine ⟨?_, ?_, ?_⟩
  · intro hr
    exact hloop _ (by simp [compile_shader, hr])
  · intro hr
    exact ⟨hloop _ (by simp [compile_shader, hr]),
           hloop _ (by simp [compile_shader, hr])⟩
  · rw [hev]
    exact List.mem_cons_of_mem _ (List.mem_cons_of_mem _ (List.mem_append_right _
      (List.mem_singleton.mpr rfl)))

theorem C6_reporting_amended_witness :
    find_glslc (World.mk ⟨some "g", none, [], []⟩ [⟨"a.vert", false⟩]
      (fun _ => (1, "boom"))).env = some "g" ∧
    (Event.printE ("[FAILED] " ++ joinPath SHADER_DIR "a.vert")
        ∈ (main_run (World.mk ⟨some "g", none, [], []⟩ [⟨"a.vert", false⟩]
            (fun _ => (1, "boom")))).events ∧
      Event.printE "boom"
        ∈ (main_run (World.mk ⟨some "g", none, [], []⟩ [⟨"a.vert", false⟩]
            (fun _ => (1, "boom")))).events) ∧
    Event.printE "Done."
      ∈ (main_run (World.mk ⟨some "g", none, [], []⟩ [⟨"a.vert", false⟩]
          (fun _ => (1, "boom")))).events :=
  ⟨rfl,
   (C6_reporting_amended (World.mk ⟨some "g", none, [], []⟩ [⟨"a.vert", false⟩]
      (fun _ => (1, "boom"))) "g" rfl ⟨"a.vert", false⟩ (by decide) (by decide)).2.1
     (by decide),
   (C6_reporting_amended (World.mk ⟨some "g", none, [], []⟩ [⟨"a.vert", false⟩]
      (fun _ => (1, "boom"))) "g" rfl ⟨"a.vert", false⟩ (by decide) (by decide)).2.2⟩
